import Mathlib

/-!
Verification of `proton-web-clients` excerpts against their specification.

Part 1 embeds `src/packages/shared/lib/calendar/api.ts`:
  * `getPaginatedEventsByUID` — a bounded fetch-until-short-page loop;
  * `reformatApiErrorMessage` — a suffix-stripping helper.

Part 2 embeds `src/packages/activation/mail/modals/ImportMailModal.tsx`:
  the mail-import wizard state, its comparator, error handling, cancel
  behaviour, and a small transition system over reachable wizard states.

Conventions: JavaScript strings are modelled as Lean `String` (or `List Char`
where per-character case mapping matters), numbers as `Nat`/`Int`, `undefined`
via `Option`, and JavaScript truthiness of strings/options explicitly.
-/

namespace CalendarApi

/-- `const pageSize = 100` in `getPaginatedEventsByUID`. -/
def pageSize : Nat := 100

/-- `const MAX_ITERATIONS = 100` (src/packages/shared/lib/calendar/api.ts:5). -/
def MAX_ITERATIONS : Nat := 100

/-- The `while (pageNumber < max)` loop of `getPaginatedEventsByUID`
(src/packages/shared/lib/calendar/api.ts:24-41), with the server modelled as a
total function `pages` from page number to the `Events` array of the response.
`fuel` is the number of loop iterations still allowed (`max - pageNumber`);
the loop runs until it is exhausted or a page of length `≠ pageSize` arrives.
Returns the concatenated events (`result`) together with the page numbers
requested, in request order. -/
def paginatedRun (pages : Nat → List α) : Nat → Nat → List α × List Nat
  | _, 0 => ([], [])
  | pageNumber, fuel + 1 =>
    let page := pages pageNumber
    if page.length ≠ pageSize then
      (page, [pageNumber])
    else
      let rest := paginatedRun pages (pageNumber + 1) fuel
      (page ++ rest.1, pageNumber :: rest.2)

/-- `getPaginatedEventsByUID` called with the default `max = MAX_ITERATIONS`:
the list of events it returns. -/
def getPaginatedEventsByUID (pages : Nat → List α) : List α :=
  (paginatedRun pages 0 MAX_ITERATIONS).1

/-- The page numbers `getPaginatedEventsByUID` requests (default `max`),
in request order. -/
def requestsByUID (pages : Nat → List α) : List Nat :=
  (paginatedRun pages 0 MAX_ITERATIONS).2

/-- The same loop with a fallible server: each `await api(...)` either returns
a page or throws. A thrown error aborts the loop and propagates — the source
has no `try`/`catch` (src/packages/shared/lib/calendar/api.ts:35). The second
component again records the pages requested. -/
def paginatedRunE (pages : Nat → Except ε (List α)) : Nat → Nat → Except ε (List α) × List Nat
  | _, 0 => (.ok [], [])
  | pageNumber, fuel + 1 =>
    match pages pageNumber with
    | .error e => (.error e, [pageNumber])
    | .ok page =>
      if page.length ≠ pageSize then
        (.ok page, [pageNumber])
      else
        let rest := paginatedRunE pages (pageNumber + 1) fuel
        ((match rest.1 with
          | .error e => .error e
          | .ok tail => .ok (page ++ tail)), pageNumber :: rest.2)

/-- `getPaginatedEventsByUID` over a fallible server, default `max`. -/
def getPaginatedEventsByUIDE (pages : Nat → Except ε (List α)) : Except ε (List α) :=
  (paginatedRunE pages 0 MAX_ITERATIONS).1

/-- The lowercased suffix tested by `reformatApiErrorMessage`
(src/packages/shared/lib/calendar/api.ts:47); it is 18 characters long. -/
def tryAgainSuffix : List Char := ". please try again".toList

/-- `reformatApiErrorMessage` (src/packages/shared/lib/calendar/api.ts:46-51).
JavaScript strings are modelled as `List Char`; `message.toLowerCase()` as a
per-character lowering (the suffix is pure ASCII, for which the two agree),
`endsWith` as `List.isSuffixOf`, and `message.slice(0, -18)` as keeping the
first `length - 18` characters (JavaScript clamps a negative end index to 0,
as `Nat` subtraction does). -/
def reformatApiErrorMessage (message : List Char) : List Char :=
  if tryAgainSuffix.isSuffixOf (message.map Char.toLower) then
    message.take (message.length - 18)
  else
    message

/-- A concrete server sequence of 101 pages: pages 0–99 carry exactly 100
events each, page 100 carries a single event `42`. -/
def pages101 : Nat → List Nat := fun i =>
  if i < 100 then List.replicate 100 0 else if i = 100 then [42] else []

/-- A concrete server sequence of a single short page. -/
def pagesSingleShort : Nat → List Nat := fun _ => [1, 2, 3]

/-- A concrete server whose very first request throws. -/
def pagesFirstFails : Nat → Except String (List Nat) := fun _ =>
  .error "network down"

end CalendarApi

namespace ImportMail

/-- The wizard steps (`MailImportStep` of `@proton/activation`'s interfaces,
as used by src/packages/activation/mail/modals/ImportMailModal.tsx). -/
inductive MailImportStep where
  | START
  | PREPARE
  | STARTED
deriving DecidableEq, Repr

/-- `TIME_PERIOD` import periods (only the members the modal mentions). -/
inductive TIME_PERIOD where
  | BIG_BANG
  | LAST_YEAR
  | LAST_3_MONTHS
deriving DecidableEq, Repr

/-- `AuthenticationMethod`; the modal only ever submits `PLAIN`. -/
inductive AuthenticationMethod where
  | PLAIN
  | OAUTH
deriving DecidableEq, Repr

/-- `NON_OAUTH_PROVIDER` (imported enum): the providers the `switch` in
`getDefaultImap`/`getDefaultPort` distinguishes, plus the default member. -/
inductive NON_OAUTH_PROVIDER where
  | DEFAULT
  | OUTLOOK
  | YAHOO
deriving DecidableEq, Repr

/-- JavaScript truthiness of an optional string: `undefined` and `''` are
falsy, every other string is truthy. -/
def truthyStr : Option String → Bool
  | none => false
  | some s => s != ""

/-- JavaScript `x || y` for an optional string `x` and string `y`. -/
def jsOrStr (x : Option String) (y : String) : String :=
  match x with
  | none => y
  | some s => if s = "" then y else s

/-- `ImportedMailFolder` records, reduced to the two fields the comparator
`destinationFoldersFirst` reads: the remote `Source` name and the optional
`DestinationFolder` a system folder is already mapped to. -/
structure ImportedMailFolder where
  Source : String
  DestinationFolder : Option String
deriving DecidableEq, Repr

/-- The comparator `destinationFoldersFirst`
(src/packages/activation/mail/modals/ImportMailModal.tsx:54-71), returning the
JavaScript comparator value as an `Int`. The early `return`s of the source
become an if-else chain; `a.DestinationFolder && b.DestinationFolder` is
truthiness of the optional strings. -/
def destinationFoldersFirst (a b : ImportedMailFolder) : Int :=
  if truthyStr a.DestinationFolder && truthyStr b.DestinationFolder then 0
  else if truthyStr a.DestinationFolder && !truthyStr b.DestinationFolder then -1
  else if !truthyStr a.DestinationFolder && truthyStr b.DestinationFolder then 1
  else if a.Source < b.Source then -1
  else if a.Source > b.Source then 1
  else 0

/-- `Array.prototype.sort(cmp)`: a stable sort whose output is ordered by the
comparator (for i before j in the output, `cmp rᵢ rⱼ ≤ 0` whenever `cmp` is a
consistent comparator). Modelled by the stable `List.mergeSort` with the
boolean order `cmp a b ≤ 0`. -/
def jsSort (cmp : α → α → Int) (l : List α) : List α :=
  l.mergeSort fun a b => decide (cmp a b ≤ 0)

/-- `MailImportMapping` entries of the payload (fields not read by the claims
are reduced to their identity-relevant content). -/
structure MailImportMapping where
  Source : String
  Destinations : String
  checked : Bool
deriving DecidableEq, Repr

/-- The `payload` field of the wizard state. -/
structure ImportPayload where
  AddressID : String
  Mapping : List MailImportMapping
  CustomFields : Nat
  StartTime : Option Nat
deriving DecidableEq, Repr

/-- `ImportMailModalModel`: the wizard state held in the `useState` hook
(src/packages/activation/mail/modals/ImportMailModal.tsx:126-143). -/
structure ImportMailModalModel where
  step : MailImportStep
  importID : String
  email : String
  password : String
  imap : String
  port : String
  errorCode : Nat
  errorLabel : String
  providerFolders : List ImportedMailFolder
  selectedPeriod : TIME_PERIOD
  payload : ImportPayload
  isPayloadInvalid : Bool
deriving DecidableEq, Repr

/-- `NormalizedImporter` (the `currentImport` prop of reconnect mode), reduced
to the fields the modal reads. -/
structure NormalizedImporter where
  ID : String
  Email : String
  ImapHost : String
  ImapPort : String
deriving DecidableEq, Repr

/-- Modelled from the spec: the `IMAPS` constant table lives in
`src/packages/activation/constants`, which is not part of the excerpt; the
spec only says the wizard pre-fills "the known IMAP host/port for Yahoo".
The concrete host names are placeholders — no claim depends on their value,
only on `getDefaultImap` returning exactly these constants. -/
def IMAPS : NON_OAUTH_PROVIDER → String
  | .OUTLOOK => "outlook.office365.com"
  | .YAHOO => "imap.mail.yahoo.com"
  | .DEFAULT => ""

/-- Modelled from the spec: the `PORTS` constant table, same caveat as
`IMAPS`. -/
def PORTS : NON_OAUTH_PROVIDER → String
  | .OUTLOOK => "993"
  | .YAHOO => "993"
  | .DEFAULT => ""

/-- `getDefaultImap` (src/packages/activation/mail/modals/ImportMailModal.tsx:89-98);
an absent provider argument is `none`. -/
def getDefaultImap : Option NON_OAUTH_PROVIDER → String
  | some .OUTLOOK => IMAPS .OUTLOOK
  | some .YAHOO => IMAPS .YAHOO
  | _ => ""

/-- `getDefaultPort` (src/packages/activation/mail/modals/ImportMailModal.tsx:100-109). -/
def getDefaultPort : Option NON_OAUTH_PROVIDER → String
  | some .OUTLOOK => PORTS .OUTLOOK
  | some .YAHOO => PORTS .YAHOO
  | _ => ""

/-- The initial `modalModel` passed to `useState`
(src/packages/activation/mail/modals/ImportMailModal.tsx:126-143).
`currentImport?.X || d` is JavaScript truthiness over the optional record. -/
def initialModalModel (currentImport : Option NormalizedImporter)
    (provider : Option NON_OAUTH_PROVIDER) (defaultPeriod : TIME_PERIOD)
    (firstAddressID : String) : ImportMailModalModel where
  step := .START
  importID := jsOrStr (currentImport.map NormalizedImporter.ID) ""
  email := jsOrStr (currentImport.map NormalizedImporter.Email) ""
  password := ""
  imap := jsOrStr (currentImport.map NormalizedImporter.ImapHost) (getDefaultImap provider)
  port := jsOrStr (currentImport.map NormalizedImporter.ImapPort) (getDefaultPort provider)
  errorCode := 0
  errorLabel := ""
  providerFolders := []
  selectedPeriod := defaultPeriod
  payload := { AddressID := firstAddressID, Mapping := [], CustomFields := 0, StartTime := none }
  isPayloadInvalid := false

/-- `ImporterFromServer`
(src/packages/activation/mail/modals/ImportMailModal.tsx:73-79). -/
structure ImporterFromServer where
  ID : String
  Email : String
  ImapHost : String
  ImapPort : Nat
  Sasl : AuthenticationMethod
deriving DecidableEq, Repr

/-- `moveToPrepareStep`
(src/packages/activation/mail/modals/ImportMailModal.tsx:176-188): replaces
the wizard state with the sorted folder list, the server-returned importer's
identity fields, step `PREPARE`, and a cleared inline error. -/
def moveToPrepareStep (m : ImportMailModalModel) (Importer : ImporterFromServer)
    (providerFolders : List ImportedMailFolder) : ImportMailModalModel :=
  { m with
    providerFolders := jsSort destinationFoldersFirst providerFolders
    importID := Importer.ID
    email := Importer.Email
    imap := Importer.ImapHost
    port := toString Importer.ImapPort
    step := .PREPARE
    errorCode := 0
    errorLabel := "" }

/-- Modelled from the spec: the numeric codes of the `IMPORT_ERROR`
enumeration live in `@proton/activation/interface`, outside the excerpt. The
spec names the three codes as an enumerated set; the concrete numbers are
placeholders — the claims depend only on the three codes being distinct,
nonzero values. -/
def IMPORT_ERROR.IMAP_CONNECTION_ERROR : Nat := 2900

/-- Modelled from the spec: see `IMPORT_ERROR.IMAP_CONNECTION_ERROR`. -/
def IMPORT_ERROR.AUTHENTICATION_ERROR : Nat := 2901

/-- Modelled from the spec: see `IMPORT_ERROR.IMAP_CONNECTION_ERROR`. -/
def IMPORT_ERROR.RATE_LIMIT_EXCEEDED : Nat := 2902

/-- The `data` payload of an API error (`{ Code, Error }`). -/
structure ErrorData where
  Code : Nat
  Error : String
deriving DecidableEq, Repr

/-- An error thrown by an API call; `data` may be absent, in which case the
destructuring default `{ Code: 0, Error: '' }` applies. -/
structure ApiError where
  data : Option ErrorData
deriving DecidableEq, Repr

/-- `handleSubmitStartError`
(src/packages/activation/mail/modals/ImportMailModal.tsx:190-212). Returns
the updated wizard state together with whether the generic `errorHandler`
was invoked. The `[...].includes(Code)` membership test is `List.contains`. -/
def handleSubmitStartError (error : ApiError) (m : ImportMailModalModel) :
    ImportMailModalModel × Bool :=
  let Code := (error.data.map ErrorData.Code).getD 0
  let Err := (error.data.map ErrorData.Error).getD ""
  if ([IMPORT_ERROR.AUTHENTICATION_ERROR,
       IMPORT_ERROR.IMAP_CONNECTION_ERROR,
       IMPORT_ERROR.RATE_LIMIT_EXCEEDED].contains Code) then
    ({ m with errorCode := Code, errorLabel := Err }, false)
  else
    (m, true)

/-- The outcome of `handleCancel`: either the modal closes immediately or a
discard-confirmation `ConfirmModal` is created first. -/
inductive CancelAction where
  | closeImmediately
  | showConfirmModal
deriving DecidableEq, Repr

/-- `handleCancel`
(src/packages/activation/mail/modals/ImportMailModal.tsx:333-351):
`!modalModel.email` is emptiness of the string. -/
def handleCancel (m : ImportMailModalModel) (isReconnectMode : Bool) : CancelAction :=
  if m.email == "" || m.step == MailImportStep.STARTED || isReconnectMode then
    .closeImmediately
  else
    .showConfirmModal

/-- `parseInt(port, 10)` on the numeric strings the form validates
(`isNumber`); non-numeric input is mapped to 0. -/
def parsePort (s : String) : Nat := (s.toNat?).getD 0

/-- `hasIMAPError` (src/packages/activation/mail/modals/ImportMailModal.tsx:150). -/
def hasIMAPError (m : ImportMailModalModel) : Bool :=
  m.errorCode == IMPORT_ERROR.IMAP_CONNECTION_ERROR

/-- The API requests `submitAuthentication` can issue
(src/packages/activation/mail/modals/ImportMailModal.tsx:214-279), with the
arguments the modal passes. -/
inductive ApiCall where
  | getImport (importID : String)
  | getMailImportData (importerID : String) (code : String)
  | createImport (account : String) (imapHost : String) (imapPort : Nat)
      (sasl : AuthenticationMethod) (code : String) (allowSelfSigned : Nat)
deriving DecidableEq, Repr

/-- The request trace of `submitAuthentication`
(src/packages/activation/mail/modals/ImportMailModal.tsx:214-279) on the path
where every request succeeds: with a non-empty `importID` it fetches the
existing import and then its folder listing; otherwise, with both `imap` and
`port` set, it creates an import and fetches the new import's folder listing;
otherwise it issues no request. `importerResp` is the `Importer` returned by
`getImport`, `createRespID` the `ImporterID` returned by `createImport`. -/
def submitAuthenticationCalls (m : ImportMailModalModel)
    (importerResp : ImporterFromServer) (createRespID : String) : List ApiCall :=
  if m.importID != "" then
    [.getImport m.importID,
     .getMailImportData importerResp.ID m.password]
  else if m.imap != "" && m.port != "" then
    [.createImport m.email m.imap (parsePort m.port) .PLAIN m.password
       (if hasIMAPError m then 1 else 0),
     .getMailImportData createRespID m.password]
  else
    []

/-- The `Authentication` payload returned by `getAuthenticationMethod` in
`checkAuth` (src/packages/activation/mail/modals/ImportMailModal.tsx:164-174);
every field may be absent. -/
structure AuthenticationResp where
  ImporterID : Option String
  ImapHost : Option String
  ImapPort : Option String
deriving DecidableEq, Repr

/-- The state update of `checkAuth`
(src/packages/activation/mail/modals/ImportMailModal.tsx:168-173):
`X || modalModel.x` keeps the old value when the response field is falsy. -/
def applyCheckAuth (m : ImportMailModalModel) (r : AuthenticationResp) :
    ImportMailModalModel :=
  { m with
    importID := jsOrStr r.ImporterID m.importID
    imap := jsOrStr r.ImapHost m.imap
    port := jsOrStr r.ImapPort m.port }

/-- A wizard configuration: the mutable modal state, the (constant)
`isReconnectMode` flag, and a ghost flag recording whether a server-side
job is known to exist (set when the wizard is opened on an existing
remote import or when a server response carries an `ImporterID`). -/
structure WizardState where
  model : ImportMailModalModel
  isReconnectMode : Bool
  jobExists : Bool

/-- Modelled from the spec: the `ImportStartStep`/`ImportPrepareStep` child
components (not part of the excerpt) replace the wizard state through
`updateModalModel` as the user edits form fields; per the spec they own the
form fields only, so an edit preserves `importID` and the current `step`. -/
def userEditPreserves (m mNew : ImportMailModalModel) : Prop :=
  mNew.importID = m.importID ∧ mNew.step = m.step

/-- One observable state change of the mounted wizard
(src/packages/activation/mail/modals/ImportMailModal.tsx), with server
responses as parameters:
  * `checkAuth` — the debounced effect (lines 434-442) runs `checkAuth` only
    while on `START` with empty `imap` and `port` and a non-empty email;
  * `submitAuthExisting` — `submitAuthentication` with a non-empty `importID`
    succeeds: `getImport` returned `Importer`, the folder listing returned
    `Folders`, and `moveToPrepareStep` runs (lines 216-233);
  * `submitAuthCreate` — `submitAuthentication` with empty `importID` and
    non-empty `imap`/`port` succeeds: `createImport` returned `ImporterID`
    and `moveToPrepareStep` runs on the locally assembled importer
    (lines 236-268);
  * `submitAuthFailure` — either branch threw and `handleSubmitStartError`
    ran (lines 230-231, 269-270);
  * `submitAuthMissingImap` — the fallthrough that clears `imap`
    (lines 275-278);
  * `launchImport` — the `PREPARE` submit succeeded (lines 299-309);
  * `userEdit` — a child component replaced the state (modelled from the
    spec, see `userEditPreserves`).
`submitAuthentication` is only reachable from the `START` submit when not in
reconnect mode (lines 356-362). -/
inductive Step : WizardState → WizardState → Prop where
  | checkAuth (s : WizardState) (r : AuthenticationResp)
      (hstep : s.model.step = .START) (himap : s.model.imap = "")
      (hport : s.model.port = "") (hemail : s.model.email ≠ "") :
      Step s ⟨applyCheckAuth s.model r, s.isReconnectMode,
              s.jobExists || truthyStr r.ImporterID⟩
  | submitAuthExisting (s : WizardState) (Importer : ImporterFromServer)
      (Folders : List ImportedMailFolder)
      (hstep : s.model.step = .START) (hrec : s.isReconnectMode = false)
      (hid : s.model.importID ≠ "") :
      Step s ⟨moveToPrepareStep s.model Importer Folders, s.isReconnectMode, true⟩
  | submitAuthCreate (s : WizardState) (ImporterID : String)
      (Folders : List ImportedMailFolder)
      (hstep : s.model.step = .START) (hrec : s.isReconnectMode = false)
      (hid : s.model.importID = "") (himap : s.model.imap ≠ "")
      (hport : s.model.port ≠ "") :
      Step s ⟨moveToPrepareStep s.model
                ⟨ImporterID, s.model.email, s.model.imap,
                 parsePort s.model.port, .PLAIN⟩ Folders,
              s.isReconnectMode, true⟩
  | submitAuthFailure (s : WizardState) (error : ApiError)
      (hstep : s.model.step = .START) (hrec : s.isReconnectMode = false) :
      Step s ⟨(handleSubmitStartError error s.model).1, s.isReconnectMode,
              s.jobExists⟩
  | submitAuthMissingImap (s : WizardState)
      (hstep : s.model.step = .START) (hrec : s.isReconnectMode = false)
      (hid : s.model.importID = "")
      (hmiss : ¬ (s.model.imap ≠ "" ∧ s.model.port ≠ "")) :
      Step s ⟨{ s.model with imap := "" }, s.isReconnectMode, s.jobExists⟩
  | launchImport (s : WizardState) (hstep : s.model.step = .PREPARE) :
      Step s ⟨{ s.model with step := .STARTED }, s.isReconnectMode, s.jobExists⟩
  | userEdit (s : WizardState) (mNew : ImportMailModalModel)
      (hpres : userEditPreserves s.model mNew) :
      Step s ⟨mNew, s.isReconnectMode, s.jobExists⟩

/-- The reachable wizard configurations: the mount-time state for arbitrary
props (currentImport, provider, user plan, first address), closed under
`Step`. `isReconnectMode = !!currentImport` (line 115); the ghost `jobExists`
starts true exactly in reconnect mode, where an import record was handed in. -/
inductive Reachable : WizardState → Prop where
  | init (currentImport : Option NormalizedImporter)
      (provider : Option NON_OAUTH_PROVIDER) (defaultPeriod : TIME_PERIOD)
      (firstAddressID : String) :
      Reachable ⟨initialModalModel currentImport provider defaultPeriod firstAddressID,
                 currentImport.isSome, currentImport.isSome⟩
  | step (s sNext : WizardState) (h : Reachable s) (hs : Step s sNext) :
      Reachable sNext

/-- A concrete fresh-wizard state: no existing import, no provider. -/
def exampleModel : ImportMailModalModel :=
  initialModalModel none none .BIG_BANG "address-0"

/-- A concrete existing import handed to the wizard in reconnect mode. -/
def reconnectImporter : NormalizedImporter :=
  ⟨"importer-0", "user@example.com", "imap.example.com", "993"⟩

/-- The mount-time wizard state in reconnect mode on `reconnectImporter`. -/
def reconnectModel : ImportMailModalModel :=
  initialModalModel (some reconnectImporter) none .BIG_BANG "address-0"

/-- The reconnect-mode wizard configuration at mount time. -/
def reconnectState : WizardState := ⟨reconnectModel, true, true⟩

/-- A fresh wizard whose email field has been filled in. -/
def filledModel : ImportMailModalModel :=
  { exampleModel with email := "user@example.com" }

/-- A fresh wizard state holding a non-empty `importID` and a password. -/
def filledAuthModel : ImportMailModalModel :=
  { exampleModel with importID := "importer-0", password := "hunter2" }

/-- A concrete API error carrying a known authentication error code. -/
def authFailure : ApiError :=
  ⟨some ⟨IMPORT_ERROR.AUTHENTICATION_ERROR, "Invalid credentials"⟩⟩

/-- A concrete API error with no `data` payload (an unknown failure). -/
def unknownFailure : ApiError := ⟨none⟩

/-- A folder already mapped to a destination, with source name `"b"`. -/
def folderWithDestB : ImportedMailFolder := ⟨"b", some "Inbox"⟩

/-- A folder already mapped to a destination, with source name `"a"`. -/
def folderWithDestA : ImportedMailFolder := ⟨"a", some "Archive"⟩

/-- A concrete `ImporterFromServer`, as returned by `getImport`. -/
def exampleImporter : ImporterFromServer :=
  ⟨"importer-0", "user@example.com", "imap.example.com", 993, .PLAIN⟩

/-- The fresh-wizard configuration at mount time (not reconnect mode). -/
def freshState : WizardState := ⟨exampleModel, false, false⟩

/-- The fresh wizard after the user typed an email address. -/
def editedState : WizardState := ⟨filledModel, false, false⟩

/-- An authentication-lookup response carrying an `ImporterID`. -/
def authRespWithID : AuthenticationResp :=
  ⟨some "importer-1", some "imap.example.com", some "993"⟩

/-- The wizard after `checkAuth` consumed `authRespWithID`: its `importID`
is now `"importer-1"`. -/
def discoveredState : WizardState :=
  ⟨applyCheckAuth filledModel authRespWithID, false,
   false || truthyStr authRespWithID.ImporterID⟩

/-- The `Importer` record `getImport "importer-1"` would return. -/
def getImportResp : ImporterFromServer :=
  ⟨"importer-1", "user@example.com", "imap.example.com", 993, .PLAIN⟩

end ImportMail

namespace CalendarApi

/-- Sanity link between the two embeddings: over a server that never fails,
the fallible run returns exactly the infallible run's result and issues the
same requests. -/
theorem paginatedRunE_ok (pages : Nat → List α) (start fuel : Nat) :
    paginatedRunE (fun i => Except.ok (ε := ε) (pages i)) start fuel =
      (.ok (paginatedRun pages start fuel).1, (paginatedRun pages start fuel).2) := by
  induction fuel generalizing start with
  | zero => simp [paginatedRunE, paginatedRun]
  | succ n ih =>
    simp only [paginatedRunE, paginatedRun]
    by_cases h : (pages start).length ≠ pageSize
    · simp [h]
    · simp [h, ih]

/-- The loop issues at most `fuel` requests. -/
theorem paginatedRun_requests_length_le (pages : Nat → List α) (start fuel : Nat) :
    ((paginatedRun pages start fuel).2).length ≤ fuel := by
  induction fuel generalizing start with
  | zero => simp [paginatedRun]
  | succ n ih =>
    simp only [paginatedRun]
    by_cases h : (pages start).length ≠ pageSize
    · simp [h]
    · simpa [h] using Nat.succ_le_succ (ih (start + 1))

/-- Fallible version of the request bound. -/
theorem paginatedRunE_requests_length_le (pages : Nat → Except ε (List α)) (start fuel : Nat) :
    ((paginatedRunE pages start fuel).2).length ≤ fuel := by
  induction fuel generalizing start with
  | zero => simp [paginatedRunE]
  | succ n ih =>
    simp only [paginatedRunE]
    match h : pages start with
    | .error e => simp
    | .ok page =>
      by_cases hl : page.length ≠ pageSize
      · simp [hl]
      · simpa [hl] using Nat.succ_le_succ (ih (start + 1))

/-- If the first `k` pages starting at `start` are full and page `start + k`
is short (and the fuel reaches it), the loop returns the concatenation of
pages `start .. start + k` and requests exactly those pages in order. -/
theorem paginatedRun_eq_of_short (pages : Nat → List α) :
    ∀ (k start fuel : Nat), k < fuel →
    (∀ i, i < k → (pages (start + i)).length = pageSize) →
    (pages (start + k)).length ≠ pageSize →
    paginatedRun pages start fuel =
      (((List.range' start (k + 1)).map pages).flatten, List.range' start (k + 1))
  | 0, start, fuel, hk, _, hshort => by
    match fuel, hk with
    | fuel + 1, _ =>
      simp only [paginatedRun]
      rw [if_pos (by simpa using hshort)]
      simp [List.range'_succ]
  | k + 1, start, fuel, hk, hfull, hshort => by
    match fuel, hk with
    | fuel + 1, hk =>
      have hfirst : (pages start).length = pageSize := by
        simpa using hfull 0 (Nat.succ_pos k)
      have ih := paginatedRun_eq_of_short pages k (start + 1) fuel
        (Nat.lt_of_succ_lt_succ hk)
        (fun i hi => by
          have := hfull (i + 1) (Nat.succ_lt_succ hi)
          simpa [Nat.add_assoc, Nat.add_comm 1 i] using this)
        (by
          have : start + 1 + k = start + (k + 1) := by omega
          simpa [this] using hshort)
      simp only [paginatedRun]
      rw [if_neg (by simp [hfirst])]
      simp [ih, List.range'_succ]

/-- If every page the fuel can reach is full, the loop exhausts its fuel,
returning the concatenation of pages `start .. start + fuel - 1`. -/
theorem paginatedRun_eq_of_full (pages : Nat → List α) :
    ∀ (fuel start : Nat),
    (∀ i, i < fuel → (pages (start + i)).length = pageSize) →
    paginatedRun pages start fuel =
      (((List.range' start fuel).map pages).flatten, List.range' start fuel)
  | 0, start, _ => by simp [paginatedRun]
  | fuel + 1, start, hfull => by
    have hfirst : (pages start).length = pageSize := by
      simpa using hfull 0 (Nat.succ_pos fuel)
    have ih := paginatedRun_eq_of_full pages fuel (start + 1)
      (fun i hi => by
        have := hfull (i + 1) (Nat.succ_lt_succ hi)
        simpa [Nat.add_assoc, Nat.add_comm 1 i] using this)
    simp only [paginatedRun]
    rw [if_neg (by simp [hfirst])]
    simp [ih, List.range'_succ]

/-- C3: for every sequence of server responses — pages of any lengths over an
infallible server, or any behaviour of a fallible server — a call to
`getPaginatedEventsByUID` (default `max`) issues at most 100 page requests.
(Termination is witnessed by the functions being total Lean definitions.) -/
theorem getPaginatedEventsByUID_at_most_100_requests :
    (∀ (α : Type) (pages : Nat → List α), (requestsByUID pages).length ≤ 100) ∧
    (∀ (ε α : Type) (pages : Nat → Except ε (List α)),
      ((paginatedRunE pages 0 MAX_ITERATIONS).2).length ≤ 100) := by
  constructor
  · intro α pages
    simpa [requestsByUID, MAX_ITERATIONS] using
      paginatedRun_requests_length_le pages 0 100
  · intro ε α pages
    simpa [MAX_ITERATIONS] using paginatedRunE_requests_length_le pages 0 100

/-- C1 (amended): for every server response sequence of `N` pages, **with
`N` at most the iteration cap of 100**, in which every page before the last
contains exactly 100 events and the last contains fewer than 100,
`getPaginatedEventsByUID` returns the concatenation of all pages' events in
request order, and requests exactly pages `0 .. N-1` — in particular it
issues no request after the first page whose length is below 100. -/
theorem getPaginatedEventsByUID_concatenates_pages (pages : Nat → List α)
    (N : Nat) (hN : 1 ≤ N) (hcap : N ≤ 100)
    (hfull : ∀ i, i < N - 1 → (pages i).length = 100)
    (hshort : (pages (N - 1)).length < 100) :
    getPaginatedEventsByUID pages = ((List.range N).map pages).flatten ∧
    requestsByUID pages = List.range N := by
  have h := paginatedRun_eq_of_short pages (N - 1) 0 MAX_ITERATIONS
    (by simp only [MAX_ITERATIONS]; omega)
    (fun i hi => by simpa [pageSize] using hfull i hi)
    (by simpa [pageSize] using Nat.ne_of_lt hshort)
  have hN1 : N - 1 + 1 = N := by omega
  rw [hN1] at h
  rw [List.range_eq_range']
  exact ⟨by simp [getPaginatedEventsByUID, h], by simp [requestsByUID, h]⟩

/-- Witness for C1 (amended) at a one-page sequence of 3 events. -/
theorem getPaginatedEventsByUID_concatenates_pages_witness :
    (1 ≤ 1 ∧ 1 ≤ 100 ∧ (∀ i, i < 1 - 1 → (pagesSingleShort i).length = 100) ∧
      (pagesSingleShort (1 - 1)).length < 100) ∧
    getPaginatedEventsByUID pagesSingleShort =
      ((List.range 1).map pagesSingleShort).flatten ∧
    requestsByUID pagesSingleShort = List.range 1 :=
  ⟨⟨Nat.le_refl 1, by decide,
    fun i hi => absurd hi (Nat.not_lt_zero i),
    by decide⟩,
   getPaginatedEventsByUID_concatenates_pages pagesSingleShort 1
     (Nat.le_refl 1) (by decide)
     (fun i hi => absurd hi (Nat.not_lt_zero i))
     (by decide)⟩

/-- C1 is false as stated: `pages101` is a server response sequence of 101
pages in which every page before the last has exactly 100 events and the last
has fewer, yet `getPaginatedEventsByUID` (iteration cap 100) does **not**
return the concatenation of all pages' events — the last page is never
reached. -/
theorem getPaginatedEventsByUID_cap_counterexample :
    (∀ i, i < 100 → (pages101 i).length = 100) ∧
    (pages101 100).length < 100 ∧
    getPaginatedEventsByUID pages101 ≠ ((List.range 101).map pages101).flatten := by
  refine ⟨fun i hi => by simp [pages101, hi], by simp [pages101], ?_⟩
  have hrun := paginatedRun_eq_of_full pages101 100 0
    (fun i hi => by simp [pageSize, pages101, hi])
  have hL : (getPaginatedEventsByUID pages101).length = 10000 := by
    rw [getPaginatedEventsByUID, MAX_ITERATIONS, hrun]
    simp only [List.length_flatten, List.map_map]
    rw [List.map_congr_left (g := fun _ => 100)
      (fun i hi => by
        have : i < 100 := by
          rcases List.mem_range'.mp hi with ⟨j, hj, rfl⟩
          omega
        simp [pages101, this])]
    simp [List.map_const', List.sum_replicate]
  have hR : (((List.range 101).map pages101).flatten).length = 10001 := by
    rw [List.range_eq_range', List.range'_1_concat]
    simp only [List.map_append, List.flatten_append, List.length_append,
      List.length_flatten, List.map_map]
    rw [List.map_congr_left (g := fun _ => 100)
      (fun i hi => by
        have : i < 100 := by
          rcases List.mem_range'.mp hi with ⟨j, hj, rfl⟩
          omega
        simp [pages101, this])]
    simp [List.map_const', List.sum_replicate, pages101]
  intro heq
  rw [heq, hR] at hL
  exact absurd hL (by decide)

/-- C8: if the pages requested before page `k` all succeed with full pages
(so that request `k` is actually issued, `k` below the iteration cap) and the
request for page `k` fails, `getPaginatedEventsByUID` propagates exactly that
error to the caller and returns no events. -/
theorem getPaginatedEventsByUID_error_propagates (pages : Nat → Except ε (List α))
    (k : Nat) (e : ε) (hk : k < 100)
    (hok : ∀ i, i < k → ∃ page, pages i = .ok page ∧ page.length = 100)
    (herr : pages k = .error e) :
    getPaginatedEventsByUIDE pages = .error e := by
  rw [getPaginatedEventsByUIDE, MAX_ITERATIONS]
  suffices h : ∀ (kk start fuel : Nat), kk < fuel →
      (∀ i, i < kk → ∃ page, pages (start + i) = .ok page ∧ page.length = 100) →
      pages (start + kk) = .error e →
      (paginatedRunE pages start fuel).1 = .error e by
    exact h k 0 100 hk
      (fun i hi => by simpa using hok i hi)
      (by simpa using herr)
  intro kk
  induction kk with
  | zero =>
    intro start fuel hlt hfull hfail
    match fuel, hlt with
    | fuel + 1, _ =>
      simp only [paginatedRunE]
      rw [show pages start = .error e by simpa using hfail]
  | succ n ih =>
    intro start fuel hlt hfull hfail
    match fuel, hlt with
    | fuel + 1, hlt =>
      obtain ⟨page, hpage, hlen⟩ := by simpa using hfull 0 (Nat.succ_pos n)
      have ihr := ih (start + 1) fuel (Nat.lt_of_succ_lt_succ hlt)
        (fun i hi => by
          have := hfull (i + 1) (Nat.succ_lt_succ hi)
          simpa [Nat.add_assoc, Nat.add_comm 1 i] using this)
        (by
          have : start + 1 + n = start + (n + 1) := by omega
          simpa [this] using hfail)
      simp only [paginatedRunE, hpage]
      rw [if_neg (by simp [hlen, pageSize])]
      simp only [ihr]

/-- Witness for C8: a server whose first request throws. -/
theorem getPaginatedEventsByUID_error_propagates_witness :
    (0 < 100 ∧ (∀ i, i < 0 → ∃ page, pagesFirstFails i = .ok page ∧ page.length = 100) ∧
      pagesFirstFails 0 = .error "network down") ∧
    getPaginatedEventsByUIDE pagesFirstFails = .error "network down" :=
  ⟨⟨by decide, fun i hi => absurd hi (Nat.not_lt_zero i), rfl⟩,
   getPaginatedEventsByUID_error_propagates pagesFirstFails 0 "network down"
     (by decide) (fun i hi => absurd hi (Nat.not_lt_zero i)) rfl⟩

/-- C9: a message that, compared case-insensitively, ends with the
18-character suffix `". please try again"` is returned with exactly its last
18 characters removed; any other message is returned unchanged. The
case-insensitive comparison of the claim (lowercase the last 18 characters)
is shown to coincide with the code's lowercase-whole-string `endsWith`. -/
theorem reformatApiErrorMessage_strips_suffix (message : List Char) :
    ((message.drop (message.length - 18)).map Char.toLower = tryAgainSuffix →
      reformatApiErrorMessage message = message.take (message.length - 18)) ∧
    ((message.drop (message.length - 18)).map Char.toLower ≠ tryAgainSuffix →
      reformatApiErrorMessage message = message) := by
  have hlen : tryAgainSuffix.length = 18 := by decide
  have hcond : tryAgainSuffix.isSuffixOf (message.map Char.toLower) = true ↔
      (message.drop (message.length - 18)).map Char.toLower = tryAgainSuffix := by
    rw [List.isSuffixOf_iff_suffix, List.suffix_iff_eq_drop,
      List.length_map, hlen, List.map_drop]
    exact ⟨Eq.symm, Eq.symm⟩
  constructor
  · intro h
    rw [reformatApiErrorMessage, if_pos (hcond.mpr h)]
  · intro h
    rw [reformatApiErrorMessage,
      if_neg (fun hc => h (hcond.mp (by simpa using hc)))]

/-- Witness for C9 at a matching and a non-matching message. -/
theorem reformatApiErrorMessage_strips_suffix_witness :
    (("Wrong password. Please try again".toList.drop
        ("Wrong password. Please try again".toList.length - 18)).map Char.toLower =
      tryAgainSuffix ∧
     reformatApiErrorMessage "Wrong password. Please try again".toList =
      "Wrong password. Please try again".toList.take
        ("Wrong password. Please try again".toList.length - 18)) ∧
    (("Invalid UID".toList.drop ("Invalid UID".toList.length - 18)).map Char.toLower ≠
      tryAgainSuffix ∧
     reformatApiErrorMessage "Invalid UID".toList = "Invalid UID".toList) :=
  ⟨⟨by decide,
    (reformatApiErrorMessage_strips_suffix "Wrong password. Please try again".toList).1
      (by decide)⟩,
   ⟨by decide,
    (reformatApiErrorMessage_strips_suffix "Invalid UID".toList).2 (by decide)⟩⟩

end CalendarApi

namespace ImportMail

/-- The boolean order `destinationFoldersFirst a b ≤ 0` that `jsSort` feeds
to the stable merge sort. -/
theorem jsSort_destinationFoldersFirst (l : List ImportedMailFolder) :
    jsSort destinationFoldersFirst l =
      l.mergeSort fun a b => decide (destinationFoldersFirst a b ≤ 0) := rfl

/-- Characterisation of the comparator's non-positive outcomes: `a` may come
before `b` exactly when `a` has a destination, or neither blocks it — `b` has
no destination and the source names are in order. -/
theorem destinationFoldersFirst_nonpos_iff (a b : ImportedMailFolder) :
    decide (destinationFoldersFirst a b ≤ 0) = true ↔
      (truthyStr a.DestinationFolder = true ∨
       (truthyStr b.DestinationFolder = false ∧ a.Source ≤ b.Source)) := by
  rw [decide_eq_true_eq]
  unfold destinationFoldersFirst
  cases ha : truthyStr a.DestinationFolder
  · cases hb : truthyStr b.DestinationFolder
    · simp only [Bool.false_and, Bool.and_false, Bool.not_false, Bool.true_and,
        if_false, Bool.false_eq_true, false_or, true_and]
      rcases lt_trichotomy a.Source b.Source with h | h | h
      · rw [if_pos h]
        simp [le_of_lt h]
      · rw [if_neg (by simp [h]), if_neg (by simp [h])]
        simp [le_of_eq h]
      · rw [if_neg (lt_asymm h), if_pos h]
        simp [not_le.mpr h]
    · simp
  · cases hb : truthyStr b.DestinationFolder
    · simp
    · simp

/-- The comparator order is transitive. -/
theorem destinationFoldersFirst_nonpos_trans (a b c : ImportedMailFolder)
    (hab : decide (destinationFoldersFirst a b ≤ 0) = true)
    (hbc : decide (destinationFoldersFirst b c ≤ 0) = true) :
    decide (destinationFoldersFirst a c ≤ 0) = true := by
  rw [destinationFoldersFirst_nonpos_iff] at hab hbc ⊢
  rcases hab with h | ⟨hb, hsab⟩
  · exact Or.inl h
  · rcases hbc with h2 | ⟨hc, hsbc⟩
    · rw [h2] at hb
      exact absurd hb (by simp)
    · exact Or.inr ⟨hc, le_trans hsab hsbc⟩

/-- The comparator order is total. -/
theorem destinationFoldersFirst_nonpos_total (a b : ImportedMailFolder) :
    (decide (destinationFoldersFirst a b ≤ 0) ||
     decide (destinationFoldersFirst b a ≤ 0)) = true := by
  rw [Bool.or_eq_true, destinationFoldersFirst_nonpos_iff,
    destinationFoldersFirst_nonpos_iff]
  by_cases ha : truthyStr a.DestinationFolder = true
  · exact Or.inl (Or.inl ha)
  · by_cases hb : truthyStr b.DestinationFolder = true
    · exact Or.inr (Or.inl hb)
    · rw [Bool.not_eq_true] at ha hb
      rcases le_total a.Source b.Source with h | h
      · exact Or.inl (Or.inr ⟨hb, h⟩)
      · exact Or.inr (Or.inr ⟨ha, h⟩)

/-- C2 (amended): after sorting with `destinationFoldersFirst`, every folder
with a `DestinationFolder` precedes every folder without one, and within the
group **without** a destination the folders appear in lexically ascending
order of their `Source` names; the folders **with** a destination keep their
original relative order (the comparator reports any two of them as equal), so
they are in general not ordered by `Source`. -/
theorem destinationFoldersFirst_sort_spec (l : List ImportedMailFolder) :
    ((jsSort destinationFoldersFirst l).Pairwise fun a b =>
        truthyStr a.DestinationFolder = true ∨
        (truthyStr b.DestinationFolder = false ∧ a.Source ≤ b.Source)) ∧
    (jsSort destinationFoldersFirst l).filter
        (fun f => truthyStr f.DestinationFolder) =
      l.filter (fun f => truthyStr f.DestinationFolder) := by
  rw [jsSort_destinationFoldersFirst]
  constructor
  · exact (List.sorted_mergeSort destinationFoldersFirst_nonpos_trans
      destinationFoldersFirst_nonpos_total l).imp
      (fun hab => (destinationFoldersFirst_nonpos_iff _ _).mp hab)
  · have hall : ∀ f ∈ l.filter (fun f => truthyStr f.DestinationFolder),
        truthyStr f.DestinationFolder = true := by
      intro f hf
      exact (List.mem_filter.mp hf).2
    have hpair : (l.filter (fun f => truthyStr f.DestinationFolder)).Pairwise
        fun a b => decide (destinationFoldersFirst a b ≤ 0) = true := by
      refine List.pairwise_of_forall_mem_list fun a haMem b hbMem => ?_
      exact (destinationFoldersFirst_nonpos_iff a b).mpr (Or.inl (hall a haMem))
    have hsub1 : List.Sublist (l.filter fun f => truthyStr f.DestinationFolder)
        (l.mergeSort fun a b => decide (destinationFoldersFirst a b ≤ 0)) :=
      List.sublist_mergeSort destinationFoldersFirst_nonpos_trans
        destinationFoldersFirst_nonpos_total hpair (List.filter_sublist l)
    have hsub2 : List.Sublist (l.filter fun f => truthyStr f.DestinationFolder)
        (List.filter (fun f => truthyStr f.DestinationFolder)
          (l.mergeSort fun a b => decide (destinationFoldersFirst a b ≤ 0))) := by
      have hstep := hsub1.filter (fun f => truthyStr f.DestinationFolder)
      rwa [List.filter_eq_self.mpr hall] at hstep
    have hperm : List.Perm
        (List.filter (fun f => truthyStr f.DestinationFolder)
          (l.mergeSort fun a b => decide (destinationFoldersFirst a b ≤ 0)))
        (l.filter fun f => truthyStr f.DestinationFolder) :=
      (List.mergeSort_perm l _).filter _
    exact (hsub2.eq_of_length hperm.length_eq.symm).symm

/-- C2 is false as stated: two folders that both already have a destination
compare as equal (`destinationFoldersFirst` returns 0 before ever reading
`Source`), so the stable sort leaves them in input order — source `"b"`
stays before source `"a"`, which is not lexically ascending. -/
theorem destinationFoldersFirst_sort_counterexample :
    jsSort destinationFoldersFirst [folderWithDestB, folderWithDestA] =
      [folderWithDestB, folderWithDestA] ∧
    truthyStr folderWithDestB.DestinationFolder = true ∧
    truthyStr folderWithDestA.DestinationFolder = true ∧
    ¬ folderWithDestB.Source ≤ folderWithDestA.Source := by
  refine ⟨?_, by decide, by decide,
    fun h => absurd (String.lt_iff_toList_lt.mpr (by decide)) (not_lt.mpr h)⟩
  exact List.mergeSort_of_sorted (by decide)

/-- C7: with no existing import, the wizard's initial `imap`/`port` fields
are the `IMAPS`/`PORTS` constants for provider `YAHOO` or `OUTLOOK`, and the
empty string for the default provider member or an absent provider. -/
theorem initialModalModel_provider_defaults (defaultPeriod : TIME_PERIOD)
    (firstAddressID : String) :
    ((initialModalModel none (some .YAHOO) defaultPeriod firstAddressID).imap =
        IMAPS .YAHOO ∧
     (initialModalModel none (some .YAHOO) defaultPeriod firstAddressID).port =
        PORTS .YAHOO) ∧
    ((initialModalModel none (some .OUTLOOK) defaultPeriod firstAddressID).imap =
        IMAPS .OUTLOOK ∧
     (initialModalModel none (some .OUTLOOK) defaultPeriod firstAddressID).port =
        PORTS .OUTLOOK) ∧
    ((initialModalModel none (some .DEFAULT) defaultPeriod firstAddressID).imap = "" ∧
     (initialModalModel none (some .DEFAULT) defaultPeriod firstAddressID).port = "") ∧
    ((initialModalModel none none defaultPeriod firstAddressID).imap = "" ∧
     (initialModalModel none none defaultPeriod firstAddressID).port = "") :=
  ⟨⟨rfl, rfl⟩, ⟨rfl, rfl⟩, ⟨rfl, rfl⟩, ⟨rfl, rfl⟩⟩

/-- C4: an error whose `data.Code` is one of the three known import error
codes is captured inline — `errorCode`/`errorLabel` are set from the error,
every other wizard-state field is unchanged, and the generic error handler is
not invoked; any other error leaves the state untouched and goes to the
generic handler. -/
theorem handleSubmitStartError_spec (error : ApiError) (m : ImportMailModalModel) :
    (((error.data.map ErrorData.Code).getD 0 = IMPORT_ERROR.AUTHENTICATION_ERROR ∨
      (error.data.map ErrorData.Code).getD 0 = IMPORT_ERROR.IMAP_CONNECTION_ERROR ∨
      (error.data.map ErrorData.Code).getD 0 = IMPORT_ERROR.RATE_LIMIT_EXCEEDED) →
      ((handleSubmitStartError error m).1.errorCode =
          (error.data.map ErrorData.Code).getD 0 ∧
       (handleSubmitStartError error m).1.errorLabel =
          (error.data.map ErrorData.Error).getD "" ∧
       (handleSubmitStartError error m).1.step = m.step ∧
       (handleSubmitStartError error m).1.importID = m.importID ∧
       (handleSubmitStartError error m).1.email = m.email ∧
       (handleSubmitStartError error m).1.password = m.password ∧
       (handleSubmitStartError error m).1.imap = m.imap ∧
       (handleSubmitStartError error m).1.port = m.port ∧
       (handleSubmitStartError error m).1.providerFolders = m.providerFolders ∧
       (handleSubmitStartError error m).1.selectedPeriod = m.selectedPeriod ∧
       (handleSubmitStartError error m).1.payload = m.payload ∧
       (handleSubmitStartError error m).1.isPayloadInvalid = m.isPayloadInvalid ∧
       (handleSubmitStartError error m).2 = false)) ∧
    (¬ ((error.data.map ErrorData.Code).getD 0 = IMPORT_ERROR.AUTHENTICATION_ERROR ∨
        (error.data.map ErrorData.Code).getD 0 = IMPORT_ERROR.IMAP_CONNECTION_ERROR ∨
        (error.data.map ErrorData.Code).getD 0 = IMPORT_ERROR.RATE_LIMIT_EXCEEDED) →
      ((handleSubmitStartError error m).1 = m ∧
       (handleSubmitStartError error m).2 = true)) := by
  constructor
  · intro h
    have hc : ([IMPORT_ERROR.AUTHENTICATION_ERROR, IMPORT_ERROR.IMAP_CONNECTION_ERROR,
        IMPORT_ERROR.RATE_LIMIT_EXCEEDED].contains
          ((error.data.map ErrorData.Code).getD 0)) = true := by
      rcases h with h | h | h <;> simp [List.contains_eq_any_beq, h]
    simp only [handleSubmitStartError, hc]
    simp
  · intro h
    have hc : ([IMPORT_ERROR.AUTHENTICATION_ERROR, IMPORT_ERROR.IMAP_CONNECTION_ERROR,
        IMPORT_ERROR.RATE_LIMIT_EXCEEDED].contains
          ((error.data.map ErrorData.Code).getD 0)) = false := by
      cases hcontains : ([IMPORT_ERROR.AUTHENTICATION_ERROR,
          IMPORT_ERROR.IMAP_CONNECTION_ERROR,
          IMPORT_ERROR.RATE_LIMIT_EXCEEDED].contains
            ((error.data.map ErrorData.Code).getD 0)) with
      | false => rfl
      | true =>
        rw [List.contains_eq_any_beq] at hcontains
        simp at hcontains
        exact absurd hcontains h
    simp only [handleSubmitStartError, hc]
    simp

/-- Witness for C4 at a known authentication error and an unknown error. -/
theorem handleSubmitStartError_spec_witness :
    ((handleSubmitStartError authFailure exampleModel).1.errorCode =
        (authFailure.data.map ErrorData.Code).getD 0 ∧
     (handleSubmitStartError authFailure exampleModel).1.errorLabel =
        (authFailure.data.map ErrorData.Error).getD "" ∧
     (handleSubmitStartError authFailure exampleModel).1.step = exampleModel.step ∧
     (handleSubmitStartError authFailure exampleModel).1.importID = exampleModel.importID ∧
     (handleSubmitStartError authFailure exampleModel).1.email = exampleModel.email ∧
     (handleSubmitStartError authFailure exampleModel).1.password = exampleModel.password ∧
     (handleSubmitStartError authFailure exampleModel).1.imap = exampleModel.imap ∧
     (handleSubmitStartError authFailure exampleModel).1.port = exampleModel.port ∧
     (handleSubmitStartError authFailure exampleModel).1.providerFolders =
        exampleModel.providerFolders ∧
     (handleSubmitStartError authFailure exampleModel).1.selectedPeriod =
        exampleModel.selectedPeriod ∧
     (handleSubmitStartError authFailure exampleModel).1.payload = exampleModel.payload ∧
     (handleSubmitStartError authFailure exampleModel).1.isPayloadInvalid =
        exampleModel.isPayloadInvalid ∧
     (handleSubmitStartError authFailure exampleModel).2 = false) ∧
    ((handleSubmitStartError unknownFailure exampleModel).1 = exampleModel ∧
     (handleSubmitStartError unknownFailure exampleModel).2 = true) :=
  ⟨(handleSubmitStartError_spec authFailure exampleModel).1 (Or.inl rfl),
   (handleSubmitStartError_spec unknownFailure exampleModel).2 (by decide)⟩

/-- C5 (amended): canceling closes the wizard immediately exactly when the
email field is empty, the step is `STARTED`, **or the wizard is in reconnect
mode**; only outside reconnect mode does a non-empty email with an unfinished
step bring up the discard-confirmation dialog. -/
theorem handleCancel_spec (m : ImportMailModalModel) (isReconnectMode : Bool) :
    ((m.email = "" ∨ m.step = MailImportStep.STARTED ∨ isReconnectMode = true) →
      handleCancel m isReconnectMode = .closeImmediately) ∧
    (m.email ≠ "" → m.step ≠ MailImportStep.STARTED → isReconnectMode = false →
      handleCancel m isReconnectMode = .showConfirmModal) := by
  constructor
  · intro h
    rcases h with h | h | h <;> simp [handleCancel, h]
  · intro h1 h2 h3
    simp [handleCancel, h1, h2, h3]

/-- Witness for C5 (amended): a reconnect wizard with a filled email closes
immediately; a fresh wizard with a filled email asks for confirmation. -/
theorem handleCancel_spec_witness :
    handleCancel reconnectModel true = .closeImmediately ∧
    handleCancel filledModel false = .showConfirmModal :=
  ⟨(handleCancel_spec reconnectModel true).1 (Or.inr (Or.inr rfl)),
   (handleCancel_spec filledModel false).2 (by decide) (by decide) rfl⟩

/-- C5 is false as stated: in reconnect mode the wizard closes immediately on
cancel even though the email field is non-empty and the step is not
`STARTED` — the state in which the claim requires a confirmation dialog.
`reconnectModel` is the mount-time state of a reconnect wizard. -/
theorem handleCancel_counterexample :
    reconnectModel.email ≠ "" ∧
    reconnectModel.step ≠ MailImportStep.STARTED ∧
    handleCancel reconnectModel true = .closeImmediately := by decide

/-- C10: `moveToPrepareStep` always produces a state on step `PREPARE` with
`errorCode = 0`, `errorLabel = ""`, and `importID`/`email`/`imap`/`port`
taken from the server-returned `Importer` record — no inline authentication
error persists into the `PREPARE` step. -/
theorem moveToPrepareStep_spec (m : ImportMailModalModel)
    (Importer : ImporterFromServer) (Folders : List ImportedMailFolder) :
    (moveToPrepareStep m Importer Folders).step = MailImportStep.PREPARE ∧
    (moveToPrepareStep m Importer Folders).errorCode = 0 ∧
    (moveToPrepareStep m Importer Folders).errorLabel = "" ∧
    (moveToPrepareStep m Importer Folders).importID = Importer.ID ∧
    (moveToPrepareStep m Importer Folders).email = Importer.Email ∧
    (moveToPrepareStep m Importer Folders).imap = Importer.ImapHost ∧
    (moveToPrepareStep m Importer Folders).port = toString Importer.ImapPort :=
  ⟨rfl, rfl, rfl, rfl, rfl, rfl, rfl⟩

/-- `handleSubmitStartError` never touches `importID`. -/
theorem handleSubmitStartError_fst_importID (e : ApiError) (m : ImportMailModalModel) :
    (handleSubmitStartError e m).1.importID = m.importID := by
  simp only [handleSubmitStartError]
  split <;> rfl

/-- A falsy response field leaves the old value in place under `||`. -/
theorem jsOrStr_of_not_truthy (x : Option String) (y : String)
    (h : truthyStr x = false) : jsOrStr x y = y := by
  cases x with
  | none => rfl
  | some s =>
    simp only [truthyStr, bne_eq_false_iff_eq] at h
    simp [jsOrStr, h]

/-- C6 (amended): in every reachable wizard configuration, `importID` is the
empty string until a server-side import job exists (`jobExists` is set only
when the wizard is opened on an existing import or a server response carries
an `ImporterID`); and once `importID` is non-empty, submitting authentication
does **not create a new import** — its request trace is exactly a fetch of
the existing import followed by its folder listing (so folder discovery does
run again, see the counterexample). -/
theorem importID_empty_until_job_exists :
    (∀ s, Reachable s → s.model.importID ≠ "" → s.jobExists = true) ∧
    (∀ (m : ImportMailModalModel) (importerResp : ImporterFromServer)
        (createRespID : String), m.importID ≠ "" →
      submitAuthenticationCalls m importerResp createRespID =
        [ApiCall.getImport m.importID,
         ApiCall.getMailImportData importerResp.ID m.password]) := by
  constructor
  · intro s hr
    induction hr with
    | init currentImport provider defaultPeriod firstAddressID =>
      cases currentImport with
      | none => intro hne; exact absurd rfl hne
      | some ci => intro _; rfl
    | step s sNext hr hs ih =>
      cases hs with
      | checkAuth r hstep himap hport hemail =>
        intro hne
        cases htr : truthyStr r.ImporterID with
        | true => simp [htr]
        | false =>
          have hkeep : jsOrStr r.ImporterID s.model.importID = s.model.importID :=
            jsOrStr_of_not_truthy r.ImporterID s.model.importID htr
          have hold : s.model.importID ≠ "" := by
            simpa [applyCheckAuth, hkeep] using hne
          simp [ih hold]
      | submitAuthExisting Importer Folders hstep hrec hid => intro _; rfl
      | submitAuthCreate ImporterID Folders hstep hrec hid himap hport =>
        intro _; rfl
      | submitAuthFailure error hstep hrec =>
        intro hne
        refine ih ?_
        rw [← handleSubmitStartError_fst_importID error s.model]
        exact hne
      | submitAuthMissingImap hstep hrec hid hmiss =>
        intro hne
        exact ih (by simpa using hne)
      | launchImport hstep =>
        intro hne
        exact ih (by simpa using hne)
      | userEdit mNew hpres =>
        intro hne
        refine ih ?_
        rw [← hpres.1]
        exact hne
  · intro m importerResp createRespID hne
    have hb : (m.importID != "") = true := bne_iff_ne.mpr hne
    simp [submitAuthenticationCalls, hb]

/-- Witness for C6 (amended): the reconnect wizard starts with a non-empty
`importID` and a known job; a concrete state with `importID` set produces
exactly the fetch-and-list request trace. -/
theorem importID_empty_until_job_exists_witness :
    (reconnectState.model.importID ≠ "" ∧ reconnectState.jobExists = true) ∧
    (filledAuthModel.importID ≠ "" ∧
     submitAuthenticationCalls filledAuthModel exampleImporter "new-id" =
       [ApiCall.getImport filledAuthModel.importID,
        ApiCall.getMailImportData exampleImporter.ID filledAuthModel.password]) :=
  ⟨⟨by decide,
    importID_empty_until_job_exists.1 reconnectState
      (Reachable.init (some reconnectImporter) none TIME_PERIOD.BIG_BANG "address-0")
      (by decide)⟩,
   ⟨by decide,
    importID_empty_until_job_exists.2 filledAuthModel exampleImporter "new-id"
      (by decide)⟩⟩

/-- C6 is false as stated in its second half: `discoveredState` is a
reachable non-reconnect wizard state whose `importID` (`"importer-1"`,
obtained from the authentication lookup) is non-empty, and yet submitting
authentication from it **does** issue a folder-discovery request
(`getMailImportData`) for that import — what it skips is only the creation
of a new import. -/
theorem submitAuthentication_refetches_folders_counterexample :
    Reachable discoveredState ∧
    discoveredState.isReconnectMode = false ∧
    discoveredState.model.importID = "importer-1" ∧
    ApiCall.getMailImportData "importer-1" discoveredState.model.password ∈
      submitAuthenticationCalls discoveredState.model getImportResp "unused-id" := by
  refine ⟨?_, rfl, by decide, by decide⟩
  have h0 : Reachable freshState :=
    Reachable.init none none TIME_PERIOD.BIG_BANG "address-0"
  have h1 : Reachable editedState :=
    Reachable.step freshState editedState h0
      (Step.userEdit freshState filledModel ⟨rfl, rfl⟩)
  exact Reachable.step editedState discoveredState h1
    (Step.checkAuth editedState authRespWithID rfl rfl rfl (by decide))

end ImportMail
